import Mathlib

/-!
# Gateway SNAT resource handler

A shallow embedding of `aviatrix/resource_aviatrix_gateway_snat.go`: the four
handlers `resourceAviatrixGatewaySNatCreate`, `...Read`, `...Update` and
`...Delete`, over explicit models of the two collaborators the handlers talk
to.

* `schema.ResourceData` (the hosting framework) is a record of the three
  schema attributes, the resource ID and the prior values `HasChange`
  compares against.
* `goaviatrix.Client` (the remote API client) is a record of four
  state-passing functions over an arbitrary remote state `σ`.  Every handler
  returns an `Outcome`: the Go `error` it returns, the resource data and the
  remote state it leaves, and the sequence of client calls it made.

Go's `nil` slice and the empty slice are both the empty list.  The client is
assumed not to write through the `*Gateway` pointer it is handed.
`d.Partial` and `log.Printf` have no effect on what is modelled and are left
out.
-/

namespace Aviatrix

/-! ## Errors -/

/-- A Go `error` value: the text `Error()` returns, and whether the value is
the sentinel `goaviatrix.ErrNotFound` (what `err == goaviatrix.ErrNotFound`
tests). -/
structure GoError where
  isErrNotFound : Bool
  Error : String
  deriving DecidableEq, Repr

/-- The value `fmt.Errorf` builds once the format string is expanded: a fresh
error, never the sentinel, whose text is the expanded string. -/
def fmt.Errorf (msg : String) : GoError :=
  { isErrNotFound := false, Error := msg }

/-! ## API structs (`goaviatrix`) -/

/-- The struct `goaviatrix.PolicyRule`. -/
structure PolicyRule where
  SrcIP : String
  SrcPort : String
  DstIP : String
  DstPort : String
  Protocol : String
  Interface : String
  Connection : String
  Mark : String
  NewSrcIP : String
  NewSrcPort : String
  ExcludeRTB : String
  deriving DecidableEq, Repr

/-- The fields of `goaviatrix.Gateway` this file reads or writes.  A field
left out of a struct literal has Go's zero value. -/
structure Gateway where
  GatewayName : String := ""
  GwName : String := ""
  EnableNat : String := ""
  SnatMode : String := ""
  SnatPolicy : List PolicyRule := []
  deriving DecidableEq, Repr

/-- The field of `goaviatrix.GatewayDetail` this file reads. -/
structure GatewayDetail where
  SnatPolicy : List PolicyRule := []
  deriving DecidableEq, Repr

/-! ## Schema values (`schema.ResourceData`) -/

/-- One element of the `snat_policy` list: the `map[string]interface{}` with
the eleven string keys the schema declares. -/
structure SnatPolicyElem where
  src_cidr : String
  src_port : String
  dst_cidr : String
  dst_port : String
  protocol : String
  interface : String
  connection : String
  mark : String
  snat_ips : String
  snat_port : String
  exclude_rtb : String
  deriving DecidableEq, Repr

/-- The resource data `d`: the ID, the current value of each attribute
(`d.Get`), and the prior value of `snat_mode` and `snat_policy` that
`d.HasChange` compares the current one with. -/
structure ResourceData where
  id : String
  gw_name : String
  snat_mode : String
  snat_policy : List SnatPolicyElem
  prior_snat_mode : String
  prior_snat_policy : List SnatPolicyElem
  deriving DecidableEq, Repr

/-- The call `d.Id()`. -/
def ResourceData.Id (d : ResourceData) : String := d.id

/-- The call `d.SetId(v)`. -/
def ResourceData.SetId (d : ResourceData) (v : String) : ResourceData :=
  { d with id := v }

/-- The call `d.Set("gw_name", v)`. -/
def ResourceData.Set_gw_name (d : ResourceData) (v : String) : ResourceData :=
  { d with gw_name := v }

/-- The call `d.Set("snat_mode", v)`. -/
def ResourceData.Set_snat_mode (d : ResourceData) (v : String) : ResourceData :=
  { d with snat_mode := v }

/-- The call `d.Set("snat_policy", v)`. -/
def ResourceData.Set_snat_policy (d : ResourceData) (v : List SnatPolicyElem) :
    ResourceData :=
  { d with snat_policy := v }

/-- The call `d.HasChange(key)` for the two keys the handlers ask about: the
current value differs from the prior one. -/
def ResourceData.HasChange (d : ResourceData) (key : String) : Bool :=
  if key = "snat_mode" then decide (d.prior_snat_mode ≠ d.snat_mode)
  else if key = "snat_policy" then decide (d.prior_snat_policy ≠ d.snat_policy)
  else false

/-- The call `d.GetOk("snat_policy")`: the value, and whether it is not the
zero value (a non-empty list). -/
def ResourceData.GetOk_snat_policy (d : ResourceData) : List SnatPolicyElem × Bool :=
  (d.snat_policy, !d.snat_policy.isEmpty)

/-! ## The remote client -/

/-- The four operations of `*goaviatrix.Client` the handlers call, each a
function of the request and the remote state. -/
structure Client (σ : Type) where
  EnableSNat : Gateway → σ → Option GoError × σ
  DisableSNat : Gateway → σ → Option GoError × σ
  GetGateway : Gateway → σ → Except GoError (Option Gateway) × σ
  GetGatewayDetail : Gateway → σ → Except GoError GatewayDetail × σ

/-- A call made to the client, with its request. -/
inductive Call where
  | EnableSNat (g : Gateway)
  | DisableSNat (g : Gateway)
  | GetGateway (g : Gateway)
  | GetGatewayDetail (g : Gateway)
  deriving DecidableEq, Repr

/-- What a handler leaves behind: the returned `error` (`none` is `nil`), the
resource data, the remote state, and the client calls in the order made. -/
structure Outcome (σ : Type) where
  err : Option GoError
  d : ResourceData
  remote : σ
  calls : List Call

/-! ## Translations -/

/-- The struct literal of lines 133-145 (and 257-269, 305-317): one schema
element to one `PolicyRule`. -/
def customPolicy (pl : SnatPolicyElem) : PolicyRule :=
  { SrcIP := pl.src_cidr
    SrcPort := pl.src_port
    DstIP := pl.dst_cidr
    DstPort := pl.dst_port
    Protocol := pl.protocol
    Interface := pl.interface
    Connection := pl.connection
    Mark := pl.mark
    NewSrcIP := pl.snat_ips
    NewSrcPort := pl.snat_port
    ExcludeRTB := pl.exclude_rtb }

/-- The loop `for _, policy := range policies { ...; gateway.SnatPolicy =
append(gateway.SnatPolicy, *customPolicy) }` started from the list `acc`. -/
def appendPolicies (acc : List PolicyRule) (policies : List SnatPolicyElem) :
    List PolicyRule :=
  policies.foldl (fun acc policy => acc ++ [customPolicy policy]) acc

/-- The body of the loop of lines 197-211: one `PolicyRule` to one schema
element `sP`. -/
def sP (policy : PolicyRule) : SnatPolicyElem :=
  { src_cidr := policy.SrcIP
    src_port := policy.SrcPort
    dst_cidr := policy.DstIP
    dst_port := policy.DstPort
    protocol := policy.Protocol
    interface := policy.Interface
    connection := policy.Connection
    mark := policy.Mark
    snat_ips := policy.NewSrcIP
    snat_port := policy.NewSrcPort
    exclude_rtb := policy.ExcludeRTB }

/-- The loop `for _, policy := range gwDetail.SnatPolicy { ...; snatPolicy =
append(snatPolicy, sP) }` of Read, started from the nil slice. -/
def readPolicies (policies : List PolicyRule) : List SnatPolicyElem :=
  policies.foldl (fun snatPolicy policy => snatPolicy ++ [sP policy]) []

/-! ## Read -/

/-- The handler `resourceAviatrixGatewaySNatRead` (lines 161-229). -/
def resourceAviatrixGatewaySNatRead {σ : Type} (client : Client σ)
    (d : ResourceData) (s : σ) : Outcome σ :=
  let gwName := d.gw_name
  let d : ResourceData :=
    if gwName = "" then
      let id := d.Id
      (d.Set_gw_name id).SetId id
    else d
  let gateway : Gateway := { GwName := d.gw_name }
  match client.GetGateway gateway s with
  | (.error err, s1) =>
    if err.isErrNotFound then
      { err := none, d := d.SetId "", remote := s1, calls := [.GetGateway gateway] }
    else
      { err := some (fmt.Errorf ("couldn't find Aviatrix gateway: " ++ err.Error))
        d := d, remote := s1, calls := [.GetGateway gateway] }
  | (.ok none, s1) =>
    { err := none, d := d, remote := s1, calls := [.GetGateway gateway] }
  | (.ok (some gw), s1) =>
    let d := d.Set_gw_name gw.GwName
    match client.GetGatewayDetail gateway s1 with
    | (.error err, s2) =>
      { err := some (fmt.Errorf
          ("couldn't get detail information of Aviatrix gateway(name: " ++ gw.GwName
            ++ ") due to: " ++ err.Error))
        d := d, remote := s2
        calls := [.GetGateway gateway, .GetGatewayDetail gateway] }
    | (.ok gwDetail, s2) =>
      if gw.EnableNat = "yes" then
        if gw.SnatMode = "customized" then
          let d := d.Set_snat_mode "customized_snat"
          let snatPolicy := readPolicies gwDetail.SnatPolicy
          { err := none, d := d.Set_snat_policy snatPolicy, remote := s2
            calls := [.GetGateway gateway, .GetGatewayDetail gateway] }
        else if gw.SnatMode = "secondary" then
          let d := d.Set_snat_mode "multiple_ips"
          { err := none, d := d.Set_snat_policy [], remote := s2
            calls := [.GetGateway gateway, .GetGatewayDetail gateway] }
        else
          let d := d.Set_snat_mode "single_ip"
          { err := none, d := d.Set_snat_policy [], remote := s2
            calls := [.GetGateway gateway, .GetGatewayDetail gateway] }
      else
        { err := some (fmt.Errorf
            ("snat is not enabled for Aviatrix gateway: " ++ gw.GwName))
          d := d, remote := s2
          calls := [.GetGateway gateway, .GetGatewayDetail gateway] }

/-! ## Create -/

/-- The handler `resourceAviatrixGatewaySNatCreate` (lines 104-159).  The
comparison of line 117 is against the literal with a trailing blank, as in
the source. -/
def resourceAviatrixGatewaySNatCreate {σ : Type} (client : Client σ)
    (d : ResourceData) (s : σ) : Outcome σ :=
  let gateway : Gateway := { GatewayName := d.gw_name }
  let snatMode := d.snat_mode
  let checked : Except GoError Gateway :=
    if snatMode = "single_ip" then
      let gateway := { gateway with EnableNat := "yes" }
      if d.snat_policy.length ≠ 0 then
        .error (fmt.Errorf "'snat_policy' should be empty for 'snat_mode' of 'single_ip'")
      else .ok gateway
    else if snatMode = "multiple_ips " then
      if d.snat_policy.length ≠ 0 then
        .error (fmt.Errorf "'snat_policy' should be empty for 'snat_mode' of 'multiple_ips'")
      else
        let gateway := { gateway with EnableNat := "yes" }
        let gateway := { gateway with SnatMode := "secondary" }
        .ok gateway
    else if snatMode = "customized_snat" then
      if d.snat_policy.length = 0 then
        .error (fmt.Errorf "please specify 'snat_policy' for 'snat_mode' of 'customized_snat'")
      else
        let gateway := { gateway with EnableNat := "yes" }
        let gateway := { gateway with SnatMode := "custom" }
        if d.GetOk_snat_policy.2 then
          let policies := d.snat_policy
          .ok { gateway with SnatPolicy := appendPolicies gateway.SnatPolicy policies }
        else .ok gateway
    else
      .error (fmt.Errorf
        "please specify valid value for 'snat_mode'('single_ip' or 'customized_snat')")
  match checked with
  | .error e => { err := some e, d := d, remote := s, calls := [] }
  | .ok gateway =>
    match client.EnableSNat gateway s with
    | (some err, s1) =>
      { err := some (fmt.Errorf
          ("failed to enable SNAT of mode: " ++ snatMode ++ " for gateway(name: "
            ++ gateway.GatewayName ++ ") due to: " ++ err.Error))
        d := d, remote := s1, calls := [.EnableSNat gateway] }
    | (none, s1) =>
      let d := d.SetId gateway.GatewayName
      let r := resourceAviatrixGatewaySNatRead client d s1
      { r with calls := .EnableSNat gateway :: r.calls }

/-! ## Update -/

/-- The handler `resourceAviatrixGatewaySNatUpdate` (lines 231-332).  Each of
the two `if d.HasChange(...)` blocks either returns from the handler (an
`Outcome`) or falls through with the request, the remote state and the calls
made so far. -/
def resourceAviatrixGatewaySNatUpdate {σ : Type} (client : Client σ)
    (d : ResourceData) (s : σ) : Outcome σ :=
  let gateway : Gateway := { GatewayName := d.gw_name }
  let modeBlock : Except (Outcome σ) (Gateway × σ × List Call) :=
    if d.HasChange "snat_mode" then
      let snatMode := d.snat_mode
      let checked : Except GoError Gateway :=
        if snatMode = "multiple_ips" then
          if d.snat_policy.length ≠ 0 then
            .error (fmt.Errorf
              "'snat_policy' should be empty for 'snat_mode' of 'multiple_ips'")
          else .ok { gateway with SnatMode := "secondary" }
        else if snatMode = "customized_snat" then
          if d.snat_policy.length = 0 then
            .error (fmt.Errorf
              "please specify 'snat_policy' for 'snat_mode' of 'customized_snat'")
          else
            let gateway := { gateway with SnatMode := "custom" }
            if d.GetOk_snat_policy.2 then
              let policies := d.snat_policy
              .ok { gateway with SnatPolicy := appendPolicies gateway.SnatPolicy policies }
            else .ok gateway
        else if snatMode = "single_ip" then
          if d.snat_policy.length ≠ 0 then
            .error (fmt.Errorf
              "'snat_policy' should be empty for 'snat_mode' of 'single_ip'")
          else .ok gateway
        else
          .error (fmt.Errorf
            "please specify valid value for 'snat_mode'('single_ip', or 'customized_snat')")
      match checked with
      | .error e => .error { err := some e, d := d, remote := s, calls := [] }
      | .ok gateway =>
        match client.DisableSNat gateway s with
        | (some err, s1) =>
          .error
            { err := some (fmt.Errorf
                ("failed to disable SNAT for gateway(name: " ++ gateway.GatewayName
                  ++ ") due to: " ++ err.Error))
              d := d, remote := s1, calls := [.DisableSNat gateway] }
        | (none, s1) =>
          match client.EnableSNat gateway s1 with
          | (some err, s2) =>
            .error
              { err := some (fmt.Errorf
                  ("failed to enable SNAT of 'single_ip' for gateway(name: "
                    ++ gateway.GatewayName ++ ") due to: " ++ err.Error))
                d := d, remote := s2
                calls := [.DisableSNat gateway, .EnableSNat gateway] }
          | (none, s2) => .ok (gateway, s2, [.DisableSNat gateway, .EnableSNat gateway])
    else .ok (gateway, s, [])
  match modeBlock with
  | .error out => out
  | .ok (gateway, s, calls) =>
    let policyBlock : Except (Outcome σ) (Gateway × σ × List Call) :=
      if d.HasChange "snat_policy" then
        if !d.HasChange "snat_mode" then
          let snatMode := d.snat_mode
          if snatMode ≠ "customized_snat" then
            .error
              { err := some (fmt.Errorf
                  ("cann't update 'snat_policy' for 'snat_mode': " ++ snatMode))
                d := d, remote := s, calls := calls }
          else if d.snat_policy.length = 0 then
            .error
              { err := some (fmt.Errorf
                  "please specify 'snat_policy' for 'snat_mode' of 'customized_snat'")
                d := d, remote := s, calls := calls }
          else
            let gateway := { gateway with SnatMode := "custom" }
            let gateway :=
              if d.GetOk_snat_policy.2 then
                let policies := d.snat_policy
                { gateway with SnatPolicy := appendPolicies gateway.SnatPolicy policies }
              else gateway
            match client.EnableSNat gateway s with
            | (some err, s1) =>
              .error
                { err := some (fmt.Errorf
                    ("failed to enable SNAT of 'customized_snat': " ++ err.Error))
                  d := d, remote := s1, calls := calls ++ [.EnableSNat gateway] }
            | (none, s1) => .ok (gateway, s1, calls ++ [.EnableSNat gateway])
        else .ok (gateway, s, calls)
      else .ok (gateway, s, calls)
    match policyBlock with
    | .error out => out
    | .ok (_, s, calls) =>
      let d := d.SetId d.gw_name
      let r := resourceAviatrixGatewaySNatRead client d s
      { r with calls := calls ++ r.calls }

/-! ## Delete -/

/-- The handler `resourceAviatrixGatewaySNatDelete` (lines 334-346). -/
def resourceAviatrixGatewaySNatDelete {σ : Type} (client : Client σ)
    (d : ResourceData) (s : σ) : Outcome σ :=
  let gateway : Gateway := { GatewayName := d.gw_name }
  match client.DisableSNat gateway s with
  | (some err, s1) =>
    { err := some (fmt.Errorf
        ("failed to disable SNAT for Aviatrix gateway(name: " ++ gateway.GatewayName
          ++ ") due to: " ++ err.Error))
      d := d, remote := s1, calls := [.DisableSNat gateway] }
  | (none, s1) => { err := none, d := d, remote := s1, calls := [.DisableSNat gateway] }

/-! ## Concrete collaborators used to run the handlers -/

/-- A remote that remembers the last request `EnableSNat` accepted (if any)
and reports its `EnableNat` and `SnatMode` back unchanged from `GetGateway`,
and its `SnatPolicy` from `GetGatewayDetail`. -/
def echoClient : Client (Option Gateway) where
  EnableSNat := fun g _ => (none, some g)
  DisableSNat := fun _ _ => (none, none)
  GetGateway := fun g s =>
    match s with
    | none => (.error { isErrNotFound := true, Error := "not found" }, s)
    | some r =>
      (.ok (some { GwName := g.GwName, EnableNat := r.EnableNat, SnatMode := r.SnatMode }), s)
  GetGatewayDetail := fun _ s =>
    match s with
    | none => (.error { isErrNotFound := true, Error := "not found" }, s)
    | some r => (.ok { SnatPolicy := r.SnatPolicy }, s)

/-- A remote all of whose operations fail with the error `e`. -/
def failingClient (e : GoError) : Client Unit where
  EnableSNat := fun _ s => (some e, s)
  DisableSNat := fun _ s => (some e, s)
  GetGateway := fun _ s => (.error e, s)
  GetGatewayDetail := fun _ s => (.error e, s)

/-- A sample policy element. -/
def rule1 : SnatPolicyElem :=
  { src_cidr := "10.0.0.0/24", src_port := "80", dst_cidr := "10.1.0.0/24"
    dst_port := "443", protocol := "tcp", interface := "eth0", connection := "None"
    mark := "1", snat_ips := "172.16.0.5", snat_port := "8080", exclude_rtb := "rtb-1" }

/-- A second sample policy element. -/
def rule2 : SnatPolicyElem :=
  { src_cidr := "a", src_port := "b", dst_cidr := "c", dst_port := "d", protocol := "e"
    interface := "f", connection := "g", mark := "h", snat_ips := "i", snat_port := "j"
    exclude_rtb := "k" }

/-- Resource data of a fresh resource: no ID and no prior values. -/
def freshData (gw mode : String) (policy : List SnatPolicyElem) : ResourceData :=
  { id := "", gw_name := gw, snat_mode := mode, snat_policy := policy
    prior_snat_mode := "", prior_snat_policy := [] }

/-- Whether a call is one of the two that change the remote SNAT setting. -/
def Call.isSNat : Call → Bool
  | .EnableSNat _ => true
  | .DisableSNat _ => true
  | .GetGateway _ => false
  | .GetGatewayDetail _ => false

/-- The error of line 150: Create's answer to a `snat_mode` it does not know. -/
def invalidModeCreate : GoError :=
  fmt.Errorf "please specify valid value for 'snat_mode'('single_ip' or 'customized_snat')"

/-- The error of line 278: Update's answer to a `snat_mode` it does not know. -/
def invalidModeUpdate : GoError :=
  fmt.Errorf "please specify valid value for 'snat_mode'('single_ip', or 'customized_snat')"

/-- A configuration that breaks the coupling of the data model: a customized
mode without rules, or a single-IP or multiple-IPs mode with rules. -/
def violatesCoupling (d : ResourceData) : Prop :=
  (d.snat_mode = "customized_snat" ∧ d.snat_policy = []) ∨
  ((d.snat_mode = "single_ip" ∨ d.snat_mode = "multiple_ips") ∧ d.snat_policy ≠ [])

instance (d : ResourceData) : Decidable (violatesCoupling d) := by
  unfold violatesCoupling
  infer_instance

/-- A configuration with one of the three modes and a policy list that obeys
the coupling. -/
def validConfig (d : ResourceData) : Prop :=
  (d.snat_mode = "single_ip" ∧ d.snat_policy = []) ∨
  (d.snat_mode = "multiple_ips" ∧ d.snat_policy = []) ∨
  (d.snat_mode = "customized_snat" ∧ d.snat_policy ≠ [])

instance (d : ResourceData) : Decidable (validConfig d) := by
  unfold validConfig
  infer_instance

/-- The request Read sends: the gateway named by `gw_name`, or by the ID when
`gw_name` is empty (an import). -/
def readRequest (d : ResourceData) : Gateway :=
  { GwName := if d.gw_name = "" then d.id else d.gw_name }

/-- The resource data after the first lines of Read (164-170): an empty
`gw_name` is replaced by the ID, and the ID is set to itself. -/
def afterImport (d : ResourceData) : ResourceData :=
  { d with gw_name := if d.gw_name = "" then d.id else d.gw_name }

/-- The request Update has built at line 280 for a configuration with one of
the three modes and a policy list that obeys the coupling: EnableNat is left
unset, SnatMode is `secondary`, `custom` or unset, and SnatPolicy holds the
translated rules for the customized mode. -/
def updateRequest (d : ResourceData) : Gateway :=
  { GatewayName := d.gw_name
    SnatMode :=
      if d.snat_mode = "multiple_ips" then "secondary"
      else if d.snat_mode = "customized_snat" then "custom"
      else ""
    SnatPolicy :=
      if d.snat_mode = "customized_snat" then d.snat_policy.map customPolicy else [] }

/-- The configurations Create lets through to EnableSNat: the mode is one of
the three literals Create compares with (lines 112, 117, 123) and the policy
list is empty or not as that branch demands. -/
def createAccepts (d : ResourceData) : Prop :=
  (d.snat_mode = "single_ip" ∧ d.snat_policy = []) ∨
  (d.snat_mode = "multiple_ips " ∧ d.snat_policy = []) ∨
  (d.snat_mode = "customized_snat" ∧ d.snat_policy ≠ [])

instance (d : ResourceData) : Decidable (createAccepts d) := by
  unfold createAccepts
  infer_instance

/-- The request Create has built at line 152 for a configuration it lets
through. -/
def createRequest (d : ResourceData) : Gateway :=
  { GatewayName := d.gw_name
    EnableNat := "yes"
    SnatMode :=
      if d.snat_mode = "multiple_ips " then "secondary"
      else if d.snat_mode = "customized_snat" then "custom"
      else ""
    SnatPolicy :=
      if d.snat_mode = "customized_snat" then d.snat_policy.map customPolicy else [] }

/-- A remote whose SNAT calls succeed and which always reports the gateway
`gw` and the detail `det`. -/
def fixedClient (gw : Gateway) (det : GatewayDetail) : Client Unit where
  EnableSNat := fun _ s => (none, s)
  DisableSNat := fun _ s => (none, s)
  GetGateway := fun _ s => (.ok (some gw), s)
  GetGatewayDetail := fun _ s => (.ok det, s)

/-- Resource data of an existing customized resource whose policy list alone
has been edited. -/
def policyEdited : ResourceData :=
  { id := "gw", gw_name := "gw", snat_mode := "customized_snat", snat_policy := [rule1, rule2]
    prior_snat_mode := "customized_snat", prior_snat_policy := [rule2] }

/-- Resource data of an existing resource with nothing edited. -/
def nothingEdited : ResourceData :=
  { id := "gw", gw_name := "gw", snat_mode := "single_ip", snat_policy := []
    prior_snat_mode := "single_ip", prior_snat_policy := [] }

/-- A sample error of the remote client, not the not-found sentinel. -/
def boom : GoError := { isErrNotFound := false, Error := "boom" }

/-- A sample value of the not-found sentinel. -/
def notFound : GoError := { isErrNotFound := true, Error := "ErrNotFound" }

end Aviatrix

namespace Aviatrix

/-! ## The translation loops -/

theorem appendPolicies_eq_map (acc : List PolicyRule) (policies : List SnatPolicyElem) :
    appendPolicies acc policies = acc ++ policies.map customPolicy := by
  unfold appendPolicies
  induction policies generalizing acc with
  | nil => simp
  | cons pl rest ih => simp [List.foldl_cons, ih]

theorem readPolicies_eq_map (policies : List PolicyRule) :
    readPolicies policies = policies.map sP := by
  have key : ∀ (acc : List SnatPolicyElem) (ps : List PolicyRule),
      ps.foldl (fun snatPolicy policy => snatPolicy ++ [sP policy]) acc
        = acc ++ ps.map sP := by
    intro acc ps
    induction ps generalizing acc with
    | nil => simp
    | cons p rest ih => simp [List.foldl_cons, ih]
  simpa [readPolicies] using key [] policies

theorem sP_customPolicy (pl : SnatPolicyElem) : sP (customPolicy pl) = pl := rfl

/-- C4. Policy round trip: Read's loop over the rules that Create's loop built
from a list of schema elements gives back that list, element by element and in
order; on each element every one of the eleven keys holds its original
value. -/
theorem policy_round_trip (policies : List SnatPolicyElem) :
    readPolicies (appendPolicies [] policies) = policies ∧
    ∀ pl : SnatPolicyElem,
      (sP (customPolicy pl)).src_cidr = pl.src_cidr ∧
      (sP (customPolicy pl)).src_port = pl.src_port ∧
      (sP (customPolicy pl)).dst_cidr = pl.dst_cidr ∧
      (sP (customPolicy pl)).dst_port = pl.dst_port ∧
      (sP (customPolicy pl)).protocol = pl.protocol ∧
      (sP (customPolicy pl)).interface = pl.interface ∧
      (sP (customPolicy pl)).connection = pl.connection ∧
      (sP (customPolicy pl)).mark = pl.mark ∧
      (sP (customPolicy pl)).snat_ips = pl.snat_ips ∧
      (sP (customPolicy pl)).snat_port = pl.snat_port ∧
      (sP (customPolicy pl)).exclude_rtb = pl.exclude_rtb := by
  refine ⟨?_, fun pl => ⟨rfl, rfl, rfl, rfl, rfl, rfl, rfl, rfl, rfl, rfl, rfl⟩⟩
  rw [appendPolicies_eq_map, readPolicies_eq_map]
  simp only [List.nil_append, List.map_map]
  have : (sP ∘ customPolicy) = id := funext sP_customPolicy
  rw [this, List.map_id]

/-! ## Read makes no SNAT call -/

theorem read_calls_not_isSNat {σ : Type} (client : Client σ) (d : ResourceData) (s : σ) :
    ∀ c ∈ (resourceAviatrixGatewaySNatRead client d s).calls, c.isSNat = false := by
  intro c hc
  unfold resourceAviatrixGatewaySNatRead at hc
  dsimp only at hc
  split at hc
  · split at hc <;> simp at hc <;> subst hc <;> rfl
  · simp at hc; subst hc; rfl
  · split at hc
    · simp at hc; rcases hc with rfl | rfl <;> rfl
    · split at hc
      · split at hc
        · simp at hc; rcases hc with rfl | rfl <;> rfl
        · split at hc <;> simp at hc <;> rcases hc with rfl | rfl <;> rfl
      · simp at hc; rcases hc with rfl | rfl <;> rfl

/-! ## Create: the mode check -/

/-- C1. Create with `snat_mode = "multiple_ips"` and an empty `snat_policy`:
whatever the client and the remote state, the handler returns the error for an
unknown `snat_mode`, calls nothing and leaves the resource data as it was;
the literal Create compares with is `"multiple_ips "` (trailing blank), and
only with that value is EnableSNat called with EnableNat `yes` and SnatMode
`secondary`. -/
theorem create_multiple_ips_rejected {σ : Type} (client : Client σ) (s : σ)
    (gw : String) :
    (resourceAviatrixGatewaySNatCreate client (freshData gw "multiple_ips" []) s).err
        = some invalidModeCreate ∧
    (resourceAviatrixGatewaySNatCreate client (freshData gw "multiple_ips" []) s).calls = [] ∧
    (resourceAviatrixGatewaySNatCreate client (freshData gw "multiple_ips" []) s).d
        = freshData gw "multiple_ips" [] ∧
    (resourceAviatrixGatewaySNatCreate client (freshData gw "multiple_ips " []) s).calls.head?
        = some (.EnableSNat { GatewayName := gw, EnableNat := "yes", SnatMode := "secondary" }) := by
  refine ⟨?_, ?_, ?_, ?_⟩
  · simp [resourceAviatrixGatewaySNatCreate, freshData, invalidModeCreate]
  · simp [resourceAviatrixGatewaySNatCreate, freshData]
  · simp [resourceAviatrixGatewaySNatCreate, freshData]
  · simp only [resourceAviatrixGatewaySNatCreate, freshData]
    simp
    split <;> simp

/-! ## Read, case by case -/

theorem read_unfold {σ : Type} (client : Client σ) (d : ResourceData) (s : σ) :
    resourceAviatrixGatewaySNatRead client d s =
      match client.GetGateway (readRequest d) s with
      | (.error err, s1) =>
        if err.isErrNotFound then
          { err := none, d := (afterImport d).SetId "", remote := s1
            calls := [.GetGateway (readRequest d)] }
        else
          { err := some (fmt.Errorf ("couldn't find Aviatrix gateway: " ++ err.Error))
            d := afterImport d, remote := s1, calls := [.GetGateway (readRequest d)] }
      | (.ok none, s1) =>
        { err := none, d := afterImport d, remote := s1
          calls := [.GetGateway (readRequest d)] }
      | (.ok (some gw), s1) =>
        match client.GetGatewayDetail (readRequest d) s1 with
        | (.error err, s2) =>
          { err := some (fmt.Errorf
              ("couldn't get detail information of Aviatrix gateway(name: " ++ gw.GwName
                ++ ") due to: " ++ err.Error))
            d := (afterImport d).Set_gw_name gw.GwName, remote := s2
            calls := [.GetGateway (readRequest d), .GetGatewayDetail (readRequest d)] }
        | (.ok gwDetail, s2) =>
          if gw.EnableNat = "yes" then
            { err := none
              d := (((afterImport d).Set_gw_name gw.GwName).Set_snat_mode
                      (if gw.SnatMode = "customized" then "customized_snat"
                       else if gw.SnatMode = "secondary" then "multiple_ips"
                       else "single_ip")).Set_snat_policy
                      (if gw.SnatMode = "customized" then gwDetail.SnatPolicy.map sP else [])
              remote := s2
              calls := [.GetGateway (readRequest d), .GetGatewayDetail (readRequest d)] }
          else
            { err := some (fmt.Errorf
                ("snat is not enabled for Aviatrix gateway: " ++ gw.GwName))
              d := (afterImport d).Set_gw_name gw.GwName, remote := s2
              calls := [.GetGateway (readRequest d), .GetGatewayDetail (readRequest d)] } := by
  have hd : (if d.gw_name = "" then (d.Set_gw_name d.Id).SetId d.Id else d) = afterImport d := by
    by_cases h : d.gw_name = "" <;>
      simp [h, afterImport, ResourceData.Set_gw_name, ResourceData.SetId, ResourceData.Id]
  have hg : ({ GwName := (afterImport d).gw_name } : Gateway) = readRequest d := rfl
  unfold resourceAviatrixGatewaySNatRead
  dsimp only
  rw [hd, hg]
  split
  · rfl
  · rfl
  · rename_i gw _ _
    split
    · rfl
    · by_cases h1 : gw.EnableNat = "yes"
      · by_cases h2 : gw.SnatMode = "customized"
        · simp [h1, h2, readPolicies_eq_map]
        · by_cases h3 : gw.SnatMode = "secondary" <;> simp [h1, h2, h3]
      · simp [h1]

/-- C9. Read and a gateway that is missing, unreachable or without SNAT.
When GetGateway returns the not-found sentinel, Read sets the ID to the empty
string and returns nil, its only call is GetGateway, and `snat_mode` and
`snat_policy` are what they were.  When GetGateway returns any other error,
Read returns an error and the ID is what it was.  When the gateway is found
and its EnableNat is not `yes`, Read returns an error and `snat_mode` and
`snat_policy` are what they were. -/
theorem read_not_found_or_disabled {σ : Type} (client : Client σ) (d : ResourceData)
    (s : σ) :
    (∀ e s1, client.GetGateway (readRequest d) s = (.error e, s1) →
      e.isErrNotFound = true →
        (resourceAviatrixGatewaySNatRead client d s).err = none ∧
        (resourceAviatrixGatewaySNatRead client d s).d.id = "" ∧
        (resourceAviatrixGatewaySNatRead client d s).calls = [.GetGateway (readRequest d)] ∧
        (resourceAviatrixGatewaySNatRead client d s).d.snat_mode = d.snat_mode ∧
        (resourceAviatrixGatewaySNatRead client d s).d.snat_policy = d.snat_policy) ∧
    (∀ e s1, client.GetGateway (readRequest d) s = (.error e, s1) →
      e.isErrNotFound = false →
        (resourceAviatrixGatewaySNatRead client d s).err.isSome = true ∧
        (resourceAviatrixGatewaySNatRead client d s).d.id = d.id) ∧
    (∀ gw s1, client.GetGateway (readRequest d) s = (.ok (some gw), s1) →
      gw.EnableNat ≠ "yes" →
        (resourceAviatrixGatewaySNatRead client d s).err.isSome = true ∧
        (resourceAviatrixGatewaySNatRead client d s).d.snat_mode = d.snat_mode ∧
        (resourceAviatrixGatewaySNatRead client d s).d.snat_policy = d.snat_policy) := by
  refine ⟨?_, ?_, ?_⟩
  · intro e s1 hget hnf
    rw [read_unfold, hget]
    simp [hnf, ResourceData.SetId, afterImport]
  · intro e s1 hget hnf
    rw [read_unfold, hget]
    simp [hnf, afterImport]
  · intro gw s1 hget hnat
    rw [read_unfold, hget]
    dsimp only
    split <;> simp [hnat, afterImport, ResourceData.Set_gw_name]

theorem read_found_enabled {σ : Type} (client : Client σ) (d : ResourceData) (s : σ)
    (gw : Gateway) (s1 : σ) (gwDetail : GatewayDetail) (s2 : σ)
    (hget : client.GetGateway (readRequest d) s = (.ok (some gw), s1))
    (hdet : client.GetGatewayDetail (readRequest d) s1 = (.ok gwDetail, s2))
    (hnat : gw.EnableNat = "yes") :
    resourceAviatrixGatewaySNatRead client d s =
      { err := none
        d := (((afterImport d).Set_gw_name gw.GwName).Set_snat_mode
                (if gw.SnatMode = "customized" then "customized_snat"
                 else if gw.SnatMode = "secondary" then "multiple_ips"
                 else "single_ip")).Set_snat_policy
                (if gw.SnatMode = "customized" then gwDetail.SnatPolicy.map sP else [])
        remote := s2
        calls := [.GetGateway (readRequest d), .GetGatewayDetail (readRequest d)] } := by
  rw [read_unfold, hget]
  dsimp only
  rw [hdet]
  simp only [hnat, if_true]

/-- C6. Read overwrites the declarative state from the remote one.  For a
gateway GetGateway finds with EnableNat `yes` and whose detail GetGatewayDetail
returns, Read returns nil; `snat_mode` becomes `customized_snat` when the
remote SnatMode is `customized`, `multiple_ips` when it is `secondary`, and
`single_ip` for every other value; whenever the resulting `snat_mode` is not
`customized_snat`, `snat_policy` is empty, whatever it was before and whatever
the detail's SnatPolicy is; in the customized case `snat_policy` is the
translation of the detail's SnatPolicy. -/
theorem read_overwrites_state {σ : Type} (client : Client σ) (d : ResourceData) (s : σ)
    (gw : Gateway) (s1 : σ) (gwDetail : GatewayDetail) (s2 : σ)
    (hget : client.GetGateway (readRequest d) s = (.ok (some gw), s1))
    (hdet : client.GetGatewayDetail (readRequest d) s1 = (.ok gwDetail, s2))
    (hnat : gw.EnableNat = "yes") :
    (resourceAviatrixGatewaySNatRead client d s).err = none ∧
    (gw.SnatMode = "customized" →
      (resourceAviatrixGatewaySNatRead client d s).d.snat_mode = "customized_snat" ∧
      (resourceAviatrixGatewaySNatRead client d s).d.snat_policy
        = gwDetail.SnatPolicy.map sP) ∧
    (gw.SnatMode = "secondary" →
      (resourceAviatrixGatewaySNatRead client d s).d.snat_mode = "multiple_ips") ∧
    (gw.SnatMode ≠ "customized" → gw.SnatMode ≠ "secondary" →
      (resourceAviatrixGatewaySNatRead client d s).d.snat_mode = "single_ip") ∧
    ((resourceAviatrixGatewaySNatRead client d s).d.snat_mode ≠ "customized_snat" →
      (resourceAviatrixGatewaySNatRead client d s).d.snat_policy = []) := by
  rw [read_found_enabled client d s gw s1 gwDetail s2 hget hdet hnat]
  refine ⟨rfl, ?_, ?_, ?_, ?_⟩
  · intro h
    simp [h, ResourceData.Set_snat_mode, ResourceData.Set_snat_policy]
  · intro h
    simp [h, ResourceData.Set_snat_mode, ResourceData.Set_snat_policy]
  · intro h1 h2
    simp [h1, h2, ResourceData.Set_snat_mode, ResourceData.Set_snat_policy]
  · intro h
    by_cases h1 : gw.SnatMode = "customized"
    · simp [h1, ResourceData.Set_snat_mode, ResourceData.Set_snat_policy] at h
    · simp [h1, ResourceData.Set_snat_policy]

/-! ## The coupling of mode and policy list -/

/-- C2. A configuration that violates the coupling of mode and policy list
(customized mode without rules, or single-IP or multiple-IPs mode with rules).
Create returns an error, calls nothing on the client and leaves the resource
data, the ID included, as it was.  Update, whichever of `snat_mode` and
`snat_policy` has changed, makes no call to DisableSNat or EnableSNat, and
returns an error whenever one of the two has changed. -/
theorem coupling_violation_rejected {σ : Type} (client : Client σ) (d : ResourceData)
    (s : σ) (hv : violatesCoupling d) :
    ((resourceAviatrixGatewaySNatCreate client d s).err.isSome = true ∧
      (resourceAviatrixGatewaySNatCreate client d s).calls = [] ∧
      (resourceAviatrixGatewaySNatCreate client d s).d = d) ∧
    ((∀ c ∈ (resourceAviatrixGatewaySNatUpdate client d s).calls, c.isSNat = false) ∧
      (d.HasChange "snat_mode" = true ∨ d.HasChange "snat_policy" = true →
        (resourceAviatrixGatewaySNatUpdate client d s).err.isSome = true)) := by
  constructor
  · unfold resourceAviatrixGatewaySNatCreate
    rcases hv with ⟨h1, h2⟩ | ⟨h1 | h1, h2⟩ <;> simp [h1, h2]
  · unfold resourceAviatrixGatewaySNatUpdate
    by_cases hm : d.HasChange "snat_mode" = true
    · rcases hv with ⟨h1, h2⟩ | ⟨h1 | h1, h2⟩ <;> simp [hm, h1, h2]
    · by_cases hp : d.HasChange "snat_policy" = true
      · rcases hv with ⟨h1, h2⟩ | ⟨h1 | h1, h2⟩ <;> simp [hm, hp, h1, h2]
      · simp only [hm, hp]
        simp
        exact read_calls_not_isSNat client _ s

/-! ## Update, case by case -/

theorem update_mode_changed {σ : Type} (client : Client σ) (d : ResourceData) (s : σ)
    (hm : d.HasChange "snat_mode" = true) (hv : validConfig d) :
    resourceAviatrixGatewaySNatUpdate client d s =
      match client.DisableSNat (updateRequest d) s with
      | (some err, s1) =>
        { err := some (fmt.Errorf
            ("failed to disable SNAT for gateway(name: " ++ d.gw_name
              ++ ") due to: " ++ err.Error))
          d := d, remote := s1, calls := [.DisableSNat (updateRequest d)] }
      | (none, s1) =>
        match client.EnableSNat (updateRequest d) s1 with
        | (some err, s2) =>
          { err := some (fmt.Errorf
              ("failed to enable SNAT of 'single_ip' for gateway(name: "
                ++ d.gw_name ++ ") due to: " ++ err.Error))
            d := d, remote := s2
            calls := [.DisableSNat (updateRequest d), .EnableSNat (updateRequest d)] }
        | (none, s2) =>
          { err := (resourceAviatrixGatewaySNatRead client (d.SetId d.gw_name) s2).err
            d := (resourceAviatrixGatewaySNatRead client (d.SetId d.gw_name) s2).d
            remote := (resourceAviatrixGatewaySNatRead client (d.SetId d.gw_name) s2).remote
            calls := .DisableSNat (updateRequest d) :: .EnableSNat (updateRequest d) ::
              (resourceAviatrixGatewaySNatRead client (d.SetId d.gw_name) s2).calls } := by
  have hreq : ∀ g : Gateway, g = updateRequest d →
      (match (match client.DisableSNat g s with
        | (some err, s1) =>
          (Except.error
            { err := some (fmt.Errorf
                ("failed to disable SNAT for gateway(name: " ++ g.GatewayName
                  ++ ") due to: " ++ err.Error))
              d := d, remote := s1, calls := [.DisableSNat g] } :
            Except (Outcome σ) (Gateway × σ × List Call))
        | (none, s1) =>
          match client.EnableSNat g s1 with
          | (some err, s2) =>
            .error
              { err := some (fmt.Errorf
                  ("failed to enable SNAT of 'single_ip' for gateway(name: "
                    ++ g.GatewayName ++ ") due to: " ++ err.Error))
                d := d, remote := s2
                calls := [.DisableSNat g, .EnableSNat g] }
          | (none, s2) => .ok (g, s2, [.DisableSNat g, .EnableSNat g])) with
      | .error out => out
      | .ok (_, s, calls) =>
        { err := (resourceAviatrixGatewaySNatRead client (d.SetId d.gw_name) s).err
          d := (resourceAviatrixGatewaySNatRead client (d.SetId d.gw_name) s).d
          remote := (resourceAviatrixGatewaySNatRead client (d.SetId d.gw_name) s).remote
          calls := calls ++ (resourceAviatrixGatewaySNatRead client (d.SetId d.gw_name) s).calls })
      = match client.DisableSNat (updateRequest d) s with
        | (some err, s1) =>
          { err := some (fmt.Errorf
              ("failed to disable SNAT for gateway(name: " ++ d.gw_name
                ++ ") due to: " ++ err.Error))
            d := d, remote := s1, calls := [.DisableSNat (updateRequest d)] }
        | (none, s1) =>
          match client.EnableSNat (updateRequest d) s1 with
          | (some err, s2) =>
            { err := some (fmt.Errorf
                ("failed to enable SNAT of 'single_ip' for gateway(name: "
                  ++ d.gw_name ++ ") due to: " ++ err.Error))
              d := d, remote := s2
              calls := [.DisableSNat (updateRequest d), .EnableSNat (updateRequest d)] }
          | (none, s2) =>
            { err := (resourceAviatrixGatewaySNatRead client (d.SetId d.gw_name) s2).err
              d := (resourceAviatrixGatewaySNatRead client (d.SetId d.gw_name) s2).d
              remote := (resourceAviatrixGatewaySNatRead client (d.SetId d.gw_name) s2).remote
              calls := .DisableSNat (updateRequest d) :: .EnableSNat (updateRequest d) ::
                (resourceAviatrixGatewaySNatRead client (d.SetId d.gw_name) s2).calls } := by
    intro g hg
    subst hg
    rcases hdis : client.DisableSNat (updateRequest d) s with ⟨_ | e, s1⟩
    · dsimp only
      rcases hen : client.EnableSNat (updateRequest d) s1 with ⟨_ | e2, s2⟩
      · simp
      · simp [updateRequest]
    · simp [updateRequest]
  unfold resourceAviatrixGatewaySNatUpdate
  rcases hv with ⟨h1, h2⟩ | ⟨h1, h2⟩ | ⟨h1, h2⟩
  · simp only [hm, h1, h2]
    simp
    exact hreq _ (by simp [updateRequest, h1])
  · simp only [hm, h1, h2]
    simp
    exact hreq _ (by simp [updateRequest, h1])
  · have hok : d.GetOk_snat_policy.2 = true := by
      simp [ResourceData.GetOk_snat_policy, h2]
    simp only [hm, h1, hok, appendPolicies_eq_map]
    simp [h2]
    exact hreq _ (by simp [updateRequest, h1])

theorem update_mode_unknown {σ : Type} (client : Client σ) (d : ResourceData) (s : σ)
    (hm : d.HasChange "snat_mode" = true) (h1 : d.snat_mode ≠ "single_ip")
    (h2 : d.snat_mode ≠ "multiple_ips") (h3 : d.snat_mode ≠ "customized_snat") :
    resourceAviatrixGatewaySNatUpdate client d s
      = { err := some invalidModeUpdate, d := d, remote := s, calls := [] } := by
  unfold resourceAviatrixGatewaySNatUpdate
  simp [hm, h1, h2, h3, invalidModeUpdate]

theorem update_policy_only {σ : Type} (client : Client σ) (d : ResourceData) (s : σ)
    (hm : d.HasChange "snat_mode" = false) (hp : d.HasChange "snat_policy" = true)
    (hmode : d.snat_mode = "customized_snat") (hne : d.snat_policy ≠ []) :
    resourceAviatrixGatewaySNatUpdate client d s =
      match client.EnableSNat (updateRequest d) s with
      | (some err, s1) =>
        { err := some (fmt.Errorf
            ("failed to enable SNAT of 'customized_snat': " ++ err.Error))
          d := d, remote := s1, calls := [.EnableSNat (updateRequest d)] }
      | (none, s1) =>
        { err := (resourceAviatrixGatewaySNatRead client (d.SetId d.gw_name) s1).err
          d := (resourceAviatrixGatewaySNatRead client (d.SetId d.gw_name) s1).d
          remote := (resourceAviatrixGatewaySNatRead client (d.SetId d.gw_name) s1).remote
          calls := .EnableSNat (updateRequest d) ::
            (resourceAviatrixGatewaySNatRead client (d.SetId d.gw_name) s1).calls } := by
  have hok : d.GetOk_snat_policy.2 = true := by
    simp [ResourceData.GetOk_snat_policy, hne]
  have hreq : ({ GatewayName := d.gw_name, SnatMode := "custom"
                 SnatPolicy := d.snat_policy.map customPolicy } : Gateway)
      = updateRequest d := by
    simp [updateRequest, hmode]
  unfold resourceAviatrixGatewaySNatUpdate
  simp only [hm, hp, hmode, hok, appendPolicies_eq_map]
  simp [hne]
  rw [hreq]
  rcases hen : client.EnableSNat (updateRequest d) s with ⟨_ | e, s1⟩ <;> simp

theorem update_unchanged {σ : Type} (client : Client σ) (d : ResourceData) (s : σ)
    (hm : d.HasChange "snat_mode" = false) (hp : d.HasChange "snat_policy" = false) :
    resourceAviatrixGatewaySNatUpdate client d s
      = resourceAviatrixGatewaySNatRead client (d.SetId d.gw_name) s := by
  unfold resourceAviatrixGatewaySNatUpdate
  simp [hm, hp]

/-! ## Create, case by case -/

theorem create_accepts {σ : Type} (client : Client σ) (d : ResourceData) (s : σ)
    (ha : createAccepts d) :
    resourceAviatrixGatewaySNatCreate client d s =
      match client.EnableSNat (createRequest d) s with
      | (some err, s1) =>
        { err := some (fmt.Errorf
            ("failed to enable SNAT of mode: " ++ d.snat_mode ++ " for gateway(name: "
              ++ d.gw_name ++ ") due to: " ++ err.Error))
          d := d, remote := s1, calls := [.EnableSNat (createRequest d)] }
      | (none, s1) =>
        { err := (resourceAviatrixGatewaySNatRead client (d.SetId d.gw_name) s1).err
          d := (resourceAviatrixGatewaySNatRead client (d.SetId d.gw_name) s1).d
          remote := (resourceAviatrixGatewaySNatRead client (d.SetId d.gw_name) s1).remote
          calls := .EnableSNat (createRequest d) ::
            (resourceAviatrixGatewaySNatRead client (d.SetId d.gw_name) s1).calls } := by
  obtain ⟨id, gw, mode, policy, pm, pp⟩ := d
  unfold resourceAviatrixGatewaySNatCreate
  rcases ha with ⟨h1, h2⟩ | ⟨h1, h2⟩ | ⟨h1, h2⟩
  · simp only at h1 h2
    subst h1 h2
    simp [createRequest, ResourceData.SetId]
  · simp only at h1 h2
    subst h1 h2
    simp [createRequest, ResourceData.SetId]
  · simp only at h1 h2
    subst h1
    simp [createRequest, ResourceData.SetId, ResourceData.GetOk_snat_policy, h2,
      appendPolicies_eq_map]

theorem create_rejects {σ : Type} (client : Client σ) (d : ResourceData) (s : σ)
    (ha : ¬ createAccepts d) :
    (resourceAviatrixGatewaySNatCreate client d s).err.isSome = true ∧
    (resourceAviatrixGatewaySNatCreate client d s).calls = [] ∧
    (resourceAviatrixGatewaySNatCreate client d s).d = d ∧
    (resourceAviatrixGatewaySNatCreate client d s).remote = s := by
  unfold createAccepts at ha
  unfold resourceAviatrixGatewaySNatCreate
  by_cases h1 : d.snat_mode = "single_ip"
  · have h2 : d.snat_policy ≠ [] := fun h => ha (Or.inl ⟨h1, h⟩)
    simp [h1, h2]
  · by_cases h3 : d.snat_mode = "multiple_ips "
    · have h2 : d.snat_policy ≠ [] := fun h => ha (Or.inr (Or.inl ⟨h3, h⟩))
      simp [h3, h2]
    · by_cases h4 : d.snat_mode = "customized_snat"
      · have h2 : d.snat_policy = [] := by
          by_contra h
          exact ha (Or.inr (Or.inr ⟨h4, h⟩))
        simp [h4, h2]
      · simp [h1, h3, h4]

/-! ## Telling error texts apart by their first character -/

theorem head_append (a x : String) (c : Char) (ha : a.data.head? = some c) :
    (a ++ x).data.head? = some c := by
  rw [String.data_append, List.head?_append, ha]
  rfl

theorem invalidModeUpdate_head : invalidModeUpdate.Error.data.head? = some 'p' := by
  decide

theorem errorf_ne_invalidModeUpdate (msg : String) (c : Char)
    (h : msg.data.head? = some c) (hc : c ≠ 'p') :
    fmt.Errorf msg ≠ invalidModeUpdate := by
  intro heq
  have h2 := congrArg (fun e : GoError => e.Error.data.head?) heq
  simp only [fmt.Errorf, invalidModeUpdate_head, h] at h2
  exact hc (Option.some.inj h2)

theorem read_err_ne_invalidModeUpdate {σ : Type} (client : Client σ) (d : ResourceData)
    (s : σ) :
    (resourceAviatrixGatewaySNatRead client d s).err ≠ some invalidModeUpdate := by
  rw [read_unfold]
  rcases client.GetGateway (readRequest d) s with ⟨e | _ | gw, s1⟩
  · dsimp only
    by_cases hnf : e.isErrNotFound = true
    · simp [hnf]
    · simp only [hnf]
      intro h
      exact errorf_ne_invalidModeUpdate _ 'c' (head_append _ _ _ (by decide)) (by decide)
        (Option.some.inj h)
  · simp
  · dsimp only
    rcases client.GetGatewayDetail (readRequest d) s1 with ⟨e | det, s2⟩
    · dsimp only
      intro h
      exact errorf_ne_invalidModeUpdate _ 'c'
        (head_append _ _ _ (head_append _ _ _ (head_append _ _ _ (by decide)))) (by decide)
        (Option.some.inj h)
    · dsimp only
      by_cases hn : gw.EnableNat = "yes"
      · simp [hn]
      · simp only [hn]
        intro h
        exact errorf_ne_invalidModeUpdate _ 's' (head_append _ _ _ (by decide)) (by decide)
          (Option.some.inj h)

/-! ## Update: the mode check -/

theorem update_calls_head_of_valid {σ : Type} (client : Client σ) (d : ResourceData)
    (s : σ) (hm : d.HasChange "snat_mode" = true) (hv : validConfig d) :
    (resourceAviatrixGatewaySNatUpdate client d s).calls.head?
      = some (.DisableSNat (updateRequest d)) := by
  rw [update_mode_changed client d s hm hv]
  rcases client.DisableSNat (updateRequest d) s with ⟨_ | e, s1⟩
  · dsimp only
    rcases client.EnableSNat (updateRequest d) s1 with ⟨_ | e2, s2⟩ <;> rfl
  · rfl

theorem update_err_ne_invalid_of_known {σ : Type} (client : Client σ) (d : ResourceData)
    (s : σ) (hm : d.HasChange "snat_mode" = true)
    (hk : d.snat_mode = "single_ip" ∨ d.snat_mode = "multiple_ips" ∨
      d.snat_mode = "customized_snat") :
    (resourceAviatrixGatewaySNatUpdate client d s).err ≠ some invalidModeUpdate := by
  by_cases hv : validConfig d
  · rw [update_mode_changed client d s hm hv]
    rcases client.DisableSNat (updateRequest d) s with ⟨_ | e, s1⟩
    · dsimp only
      rcases client.EnableSNat (updateRequest d) s1 with ⟨_ | e2, s2⟩
      · exact read_err_ne_invalidModeUpdate client _ s2
      · dsimp only
        intro h
        exact errorf_ne_invalidModeUpdate _ 'f'
          (head_append _ _ _ (head_append _ _ _ (head_append _ _ _ (by decide))))
          (by decide) (Option.some.inj h)
    · dsimp only
      intro h
      exact errorf_ne_invalidModeUpdate _ 'f'
        (head_append _ _ _ (head_append _ _ _ (head_append _ _ _ (by decide))))
        (by decide) (Option.some.inj h)
  · unfold validConfig at hv
    unfold resourceAviatrixGatewaySNatUpdate
    rcases hk with h1 | h1 | h1
    · have h2 : d.snat_policy ≠ [] := fun h => hv (Or.inl ⟨h1, h⟩)
      simp [hm, h1, h2, invalidModeUpdate, fmt.Errorf]
    · have h2 : d.snat_policy ≠ [] := fun h => hv (Or.inr (Or.inl ⟨h1, h⟩))
      simp [hm, h1, h2, invalidModeUpdate, fmt.Errorf]
    · have h2 : d.snat_policy = [] := by
        by_contra h
        exact hv (Or.inr (Or.inr ⟨h1, h⟩))
      simp [hm, h1, h2, invalidModeUpdate, fmt.Errorf]

/-- C7. Update when `snat_mode` has changed.  Update returns the error for an
unknown `snat_mode`, having called neither DisableSNat nor EnableSNat, if and
only if the new mode is none of `single_ip`, `multiple_ips` and
`customized_snat` (for a known mode the returned error is never that one, and
for an unknown one no call at all is made).  For each known mode with a policy
list that obeys the emptiness rule, the check passes: the first call is
DisableSNat, and the SnatMode of its request is empty for `single_ip`,
`secondary` for `multiple_ips` and `custom` for `customized_snat`. -/
theorem update_mode_check {σ : Type} (client : Client σ) (d : ResourceData) (s : σ)
    (hm : d.HasChange "snat_mode" = true) :
    (((resourceAviatrixGatewaySNatUpdate client d s).err = some invalidModeUpdate ∧
        ∀ c ∈ (resourceAviatrixGatewaySNatUpdate client d s).calls, c.isSNat = false) ↔
      (d.snat_mode ≠ "single_ip" ∧ d.snat_mode ≠ "multiple_ips" ∧
        d.snat_mode ≠ "customized_snat")) ∧
    ((d.snat_mode = "single_ip" ∨ d.snat_mode = "multiple_ips" ∨
        d.snat_mode = "customized_snat") →
      (resourceAviatrixGatewaySNatUpdate client d s).err ≠ some invalidModeUpdate) ∧
    ((d.snat_mode ≠ "single_ip" ∧ d.snat_mode ≠ "multiple_ips" ∧
        d.snat_mode ≠ "customized_snat") →
      (resourceAviatrixGatewaySNatUpdate client d s).calls = []) ∧
    (d.snat_mode = "single_ip" → d.snat_policy = [] →
      ∃ g, (resourceAviatrixGatewaySNatUpdate client d s).calls.head?
              = some (.DisableSNat g) ∧ g.SnatMode = "") ∧
    (d.snat_mode = "multiple_ips" → d.snat_policy = [] →
      ∃ g, (resourceAviatrixGatewaySNatUpdate client d s).calls.head?
              = some (.DisableSNat g) ∧ g.SnatMode = "secondary") ∧
    (d.snat_mode = "customized_snat" → d.snat_policy ≠ [] →
      ∃ g, (resourceAviatrixGatewaySNatUpdate client d s).calls.head?
              = some (.DisableSNat g) ∧ g.SnatMode = "custom") := by
  refine ⟨⟨?_, ?_⟩, update_err_ne_invalid_of_known client d s hm, ?_, ?_, ?_, ?_⟩
  · rintro ⟨herr, -⟩
    by_contra hk
    have hk2 : d.snat_mode = "single_ip" ∨ d.snat_mode = "multiple_ips" ∨
        d.snat_mode = "customized_snat" := by
      by_contra hno
      push_neg at hno
      exact hk hno
    exact update_err_ne_invalid_of_known client d s hm hk2 herr
  · rintro ⟨h1, h2, h3⟩
    rw [update_mode_unknown client d s hm h1 h2 h3]
    simp
  · rintro ⟨h1, h2, h3⟩
    rw [update_mode_unknown client d s hm h1 h2 h3]
  · intro h1 h2
    exact ⟨updateRequest d,
      update_calls_head_of_valid client d s hm (Or.inl ⟨h1, h2⟩),
      by simp [updateRequest, h1]⟩
  · intro h1 h2
    exact ⟨updateRequest d,
      update_calls_head_of_valid client d s hm (Or.inr (Or.inl ⟨h1, h2⟩)),
      by simp [updateRequest, h1]⟩
  · intro h1 h2
    exact ⟨updateRequest d,
      update_calls_head_of_valid client d s hm (Or.inr (Or.inr ⟨h1, h2⟩)),
      by simp [updateRequest, h1]⟩

/-! ## Update: the order of the calls -/

/-- C10. Call ordering in Update.  When `snat_mode` has changed and the
configuration passes the checks, there is one request `g` such that Update
first calls DisableSNat with `g`; if that call fails it is the only call, and
if it succeeds the next call is EnableSNat with the same `g`, and no call
after it is DisableSNat or EnableSNat.  When only `snat_policy` has changed
(mode `customized_snat`, list non-empty), the first call is EnableSNat and no
other call is DisableSNat or EnableSNat.  When neither has changed, no call is
DisableSNat or EnableSNat. -/
theorem update_call_order {σ : Type} (client : Client σ) (d : ResourceData) (s : σ) :
    (d.HasChange "snat_mode" = true → validConfig d →
      ∃ g : Gateway, g.GatewayName = d.gw_name ∧
        (∀ e s1, client.DisableSNat g s = (some e, s1) →
          (resourceAviatrixGatewaySNatUpdate client d s).calls = [.DisableSNat g]) ∧
        (∀ s1, client.DisableSNat g s = (none, s1) →
          ∃ rest, (resourceAviatrixGatewaySNatUpdate client d s).calls
                    = .DisableSNat g :: .EnableSNat g :: rest ∧
                  ∀ c ∈ rest, c.isSNat = false)) ∧
    (d.HasChange "snat_mode" = false → d.HasChange "snat_policy" = true →
      d.snat_mode = "customized_snat" → d.snat_policy ≠ [] →
        ∃ (g : Gateway) (rest : List Call),
          (resourceAviatrixGatewaySNatUpdate client d s).calls = .EnableSNat g :: rest ∧
          ∀ c ∈ rest, c.isSNat = false) ∧
    (d.HasChange "snat_mode" = false → d.HasChange "snat_policy" = false →
      ∀ c ∈ (resourceAviatrixGatewaySNatUpdate client d s).calls, c.isSNat = false) := by
  refine ⟨?_, ?_, ?_⟩
  · intro hm hv
    refine ⟨updateRequest d, rfl, ?_, ?_⟩
    · intro e s1 hdis
      rw [update_mode_changed client d s hm hv, hdis]
    · intro s1 hdis
      rw [update_mode_changed client d s hm hv, hdis]
      dsimp only
      rcases client.EnableSNat (updateRequest d) s1 with ⟨_ | e2, s2⟩
      · exact ⟨_, rfl, read_calls_not_isSNat client _ s2⟩
      · exact ⟨[], rfl, by simp⟩
  · intro hm hp hmode hne
    rw [update_policy_only client d s hm hp hmode hne]
    rcases client.EnableSNat (updateRequest d) s with ⟨_ | e, s1⟩
    · exact ⟨_, _, rfl, read_calls_not_isSNat client _ s1⟩
    · exact ⟨_, [], rfl, by simp⟩
  · intro hm hp
    rw [update_unchanged client d s hm hp]
    exact read_calls_not_isSNat client _ s

/-! ## Which call comes first -/

theorem create_calls_head_of_accepts {σ : Type} (client : Client σ) (d : ResourceData)
    (s : σ) (ha : createAccepts d) :
    (resourceAviatrixGatewaySNatCreate client d s).calls.head?
      = some (.EnableSNat (createRequest d)) := by
  rw [create_accepts client d s ha]
  rcases client.EnableSNat (createRequest d) s with ⟨_ | e, s1⟩ <;> rfl

theorem update_calls_head_policy_only {σ : Type} (client : Client σ) (d : ResourceData)
    (s : σ) (hm : d.HasChange "snat_mode" = false) (hp : d.HasChange "snat_policy" = true)
    (hmode : d.snat_mode = "customized_snat") (hne : d.snat_policy ≠ []) :
    (resourceAviatrixGatewaySNatUpdate client d s).calls.head?
      = some (.EnableSNat (updateRequest d)) := by
  rw [update_policy_only client d s hm hp hmode hne]
  rcases client.EnableSNat (updateRequest d) s with ⟨_ | e, s1⟩ <;> rfl

theorem create_head_enable {σ : Type} (client : Client σ) (d : ResourceData) (s : σ)
    (g : Gateway)
    (h : (resourceAviatrixGatewaySNatCreate client d s).calls.head? = some (.EnableSNat g)) :
    createAccepts d ∧ g = createRequest d := by
  by_cases ha : createAccepts d
  · refine ⟨ha, ?_⟩
    rw [create_calls_head_of_accepts client d s ha] at h
    simp at h
    exact h.symm
  · rw [(create_rejects client d s ha).2.1] at h
    simp at h

theorem update_rejects {σ : Type} (client : Client σ) (d : ResourceData) (s : σ)
    (hm : d.HasChange "snat_mode" = true) (hv : ¬ validConfig d) :
    (resourceAviatrixGatewaySNatUpdate client d s).calls = [] := by
  unfold validConfig at hv
  unfold resourceAviatrixGatewaySNatUpdate
  by_cases h1 : d.snat_mode = "multiple_ips"
  · have h2 : d.snat_policy ≠ [] := fun h => hv (Or.inr (Or.inl ⟨h1, h⟩))
    simp [hm, h1, h2]
  · by_cases h3 : d.snat_mode = "customized_snat"
    · have h2 : d.snat_policy = [] := by
        by_contra h
        exact hv (Or.inr (Or.inr ⟨h3, h⟩))
      simp [hm, h3, h2]
    · by_cases h4 : d.snat_mode = "single_ip"
      · have h2 : d.snat_policy ≠ [] := fun h => hv (Or.inl ⟨h4, h⟩)
        simp [hm, h4, h2]
      · simp [hm, h1, h3, h4]

theorem update_policy_only_rejects {σ : Type} (client : Client σ) (d : ResourceData)
    (s : σ) (hm : d.HasChange "snat_mode" = false) (hp : d.HasChange "snat_policy" = true)
    (hv : ¬ (d.snat_mode = "customized_snat" ∧ d.snat_policy ≠ [])) :
    (resourceAviatrixGatewaySNatUpdate client d s).calls = [] := by
  unfold resourceAviatrixGatewaySNatUpdate
  by_cases h1 : d.snat_mode = "customized_snat"
  · have h2 : d.snat_policy = [] := by
      by_contra h
      exact hv ⟨h1, h⟩
    simp [hm, hp, h1, h2]
  · simp [hm, hp, h1]

theorem update_head_disable {σ : Type} (client : Client σ) (d : ResourceData) (s : σ)
    (g : Gateway)
    (h : (resourceAviatrixGatewaySNatUpdate client d s).calls.head? = some (.DisableSNat g)) :
    d.HasChange "snat_mode" = true ∧ validConfig d ∧ g = updateRequest d := by
  have hmem : Call.DisableSNat g ∈ (resourceAviatrixGatewaySNatUpdate client d s).calls :=
    List.mem_of_mem_head? h
  by_cases hm : d.HasChange "snat_mode" = true
  · by_cases hv : validConfig d
    · refine ⟨hm, hv, ?_⟩
      rw [update_calls_head_of_valid client d s hm hv] at h
      simp at h
      exact h.symm
    · rw [update_rejects client d s hm hv] at hmem
      simp at hmem
  · have hm2 : d.HasChange "snat_mode" = false := by simpa using hm
    by_cases hp : d.HasChange "snat_policy" = true
    · by_cases hv : d.snat_mode = "customized_snat" ∧ d.snat_policy ≠ []
      · rw [update_calls_head_policy_only client d s hm2 hp hv.1 hv.2] at h
        simp at h
      · rw [update_policy_only_rejects client d s hm2 hp hv] at hmem
        simp at hmem
    · have hp2 : d.HasChange "snat_policy" = false := by simpa using hp
      rw [update_unchanged client d s hm2 hp2] at hmem
      have := read_calls_not_isSNat client _ s _ hmem
      simp [Call.isSNat] at this

theorem update_head_enable {σ : Type} (client : Client σ) (d : ResourceData) (s : σ)
    (g : Gateway)
    (h : (resourceAviatrixGatewaySNatUpdate client d s).calls.head? = some (.EnableSNat g)) :
    d.HasChange "snat_mode" = false ∧ d.HasChange "snat_policy" = true ∧
      d.snat_mode = "customized_snat" ∧ d.snat_policy ≠ [] ∧ g = updateRequest d := by
  have hmem : Call.EnableSNat g ∈ (resourceAviatrixGatewaySNatUpdate client d s).calls :=
    List.mem_of_mem_head? h
  by_cases hm : d.HasChange "snat_mode" = true
  · by_cases hv : validConfig d
    · rw [update_calls_head_of_valid client d s hm hv] at h
      simp at h
    · rw [update_rejects client d s hm hv] at hmem
      simp at hmem
  · have hm2 : d.HasChange "snat_mode" = false := by simpa using hm
    by_cases hp : d.HasChange "snat_policy" = true
    · by_cases hv : d.snat_mode = "customized_snat" ∧ d.snat_policy ≠ []
      · refine ⟨hm2, hp, hv.1, hv.2, ?_⟩
        rw [update_calls_head_policy_only client d s hm2 hp hv.1 hv.2] at h
        simp at h
        exact h.symm
      · rw [update_policy_only_rejects client d s hm2 hp hv] at hmem
        simp at hmem
    · have hp2 : d.HasChange "snat_policy" = false := by simpa using hp
      rw [update_unchanged client d s hm2 hp2] at hmem
      have := read_calls_not_isSNat client _ s _ hmem
      simp [Call.isSNat] at this

/-! ## The request's policy list -/

/-- C3. With `snat_mode = "customized_snat"` and a non-empty `snat_policy`,
there is one list of rules, as long as the configured list and in its order,
whose i-th rule carries the eleven fields of the i-th configured element under
the mapping of the source; it is the SnatPolicy of the request Create passes
to EnableSNat, of the request Update passes to DisableSNat and then to
EnableSNat when the mode has changed, and of the request Update passes to
EnableSNat when only the policy has changed. -/
theorem request_policy_list {σ : Type} (client : Client σ) (d : ResourceData) (s : σ)
    (hmode : d.snat_mode = "customized_snat") (hne : d.snat_policy ≠ []) :
    ∃ ps : List PolicyRule,
      ps.length = d.snat_policy.length ∧
      (∀ (i : Nat) (pl : SnatPolicyElem), d.snat_policy[i]? = some pl →
        ∃ p : PolicyRule, ps[i]? = some p ∧
          p.SrcIP = pl.src_cidr ∧ p.SrcPort = pl.src_port ∧
          p.DstIP = pl.dst_cidr ∧ p.DstPort = pl.dst_port ∧
          p.Protocol = pl.protocol ∧ p.Interface = pl.interface ∧
          p.Connection = pl.connection ∧ p.Mark = pl.mark ∧
          p.NewSrcIP = pl.snat_ips ∧ p.NewSrcPort = pl.snat_port ∧
          p.ExcludeRTB = pl.exclude_rtb) ∧
      (∃ g, (resourceAviatrixGatewaySNatCreate client d s).calls.head?
              = some (.EnableSNat g) ∧ g.SnatPolicy = ps) ∧
      (d.HasChange "snat_mode" = true →
        ∃ g, (resourceAviatrixGatewaySNatUpdate client d s).calls.head?
                = some (.DisableSNat g) ∧ g.SnatPolicy = ps ∧
              ∀ s1, client.DisableSNat g s = (none, s1) →
                (resourceAviatrixGatewaySNatUpdate client d s).calls[1]?
                  = some (.EnableSNat g)) ∧
      (d.HasChange "snat_mode" = false → d.HasChange "snat_policy" = true →
        ∃ g, (resourceAviatrixGatewaySNatUpdate client d s).calls.head?
                = some (.EnableSNat g) ∧ g.SnatPolicy = ps) := by
  have hv : validConfig d := Or.inr (Or.inr ⟨hmode, hne⟩)
  have hup : (updateRequest d).SnatPolicy = d.snat_policy.map customPolicy := by
    simp [updateRequest, hmode]
  refine ⟨d.snat_policy.map customPolicy, by simp, ?_, ?_, ?_, ?_⟩
  · intro i pl hi
    exact ⟨customPolicy pl, by simp [List.getElem?_map, hi],
      rfl, rfl, rfl, rfl, rfl, rfl, rfl, rfl, rfl, rfl, rfl⟩
  · exact ⟨createRequest d,
      create_calls_head_of_accepts client d s (Or.inr (Or.inr ⟨hmode, hne⟩)),
      by simp [createRequest, hmode]⟩
  · intro hm
    refine ⟨updateRequest d, update_calls_head_of_valid client d s hm hv, hup, ?_⟩
    intro s1 hdis
    rw [update_mode_changed client d s hm hv, hdis]
    dsimp only
    rcases client.EnableSNat (updateRequest d) s1 with ⟨_ | e2, s2⟩ <;> simp
  · intro hm hp
    exact ⟨updateRequest d, update_calls_head_policy_only client d s hm hp hmode hne, hup⟩

/-! ## What becomes of a remote error -/

/-- C5, as the code has it.  An error `e` of a client call is not returned as
it is: the handler returns a fresh error whose text is the handler's own
context followed by the text of `e`.  Delete wraps the error of DisableSNat;
Read wraps the error of GetGateway, unless it is the not-found sentinel, for
which Read sets the ID to the empty string and returns nil, and wraps the error
of GetGatewayDetail; Create wraps the error of EnableSNat and otherwise returns
what Read returns; Update wraps the errors of DisableSNat and EnableSNat of the
mode branch and of EnableSNat of the policy branch, and otherwise returns what
Read returns. -/
theorem remote_errors_are_wrapped {σ : Type} (client : Client σ) (d : ResourceData)
    (s : σ) :
    (∀ e s1, client.DisableSNat { GatewayName := d.gw_name } s = (some e, s1) →
      (resourceAviatrixGatewaySNatDelete client d s).err
        = some (fmt.Errorf ("failed to disable SNAT for Aviatrix gateway(name: "
            ++ d.gw_name ++ ") due to: " ++ e.Error))) ∧
    (∀ e s1, client.GetGateway (readRequest d) s = (.error e, s1) →
      (e.isErrNotFound = true →
        (resourceAviatrixGatewaySNatRead client d s).err = none ∧
        (resourceAviatrixGatewaySNatRead client d s).d.id = "") ∧
      (e.isErrNotFound = false →
        (resourceAviatrixGatewaySNatRead client d s).err
          = some (fmt.Errorf ("couldn't find Aviatrix gateway: " ++ e.Error)))) ∧
    (∀ gw s1 e s2, client.GetGateway (readRequest d) s = (.ok (some gw), s1) →
      client.GetGatewayDetail (readRequest d) s1 = (.error e, s2) →
      (resourceAviatrixGatewaySNatRead client d s).err
        = some (fmt.Errorf ("couldn't get detail information of Aviatrix gateway(name: "
            ++ gw.GwName ++ ") due to: " ++ e.Error))) ∧
    (∀ g e s1,
      (resourceAviatrixGatewaySNatCreate client d s).calls.head? = some (.EnableSNat g) →
      client.EnableSNat g s = (some e, s1) →
      (resourceAviatrixGatewaySNatCreate client d s).err
        = some (fmt.Errorf ("failed to enable SNAT of mode: " ++ d.snat_mode
            ++ " for gateway(name: " ++ d.gw_name ++ ") due to: " ++ e.Error))) ∧
    (∀ g s1,
      (resourceAviatrixGatewaySNatCreate client d s).calls.head? = some (.EnableSNat g) →
      client.EnableSNat g s = (none, s1) →
      (resourceAviatrixGatewaySNatCreate client d s).err
        = (resourceAviatrixGatewaySNatRead client (d.SetId d.gw_name) s1).err) ∧
    (∀ g e s1,
      (resourceAviatrixGatewaySNatUpdate client d s).calls.head? = some (.DisableSNat g) →
      client.DisableSNat g s = (some e, s1) →
      (resourceAviatrixGatewaySNatUpdate client d s).err
        = some (fmt.Errorf ("failed to disable SNAT for gateway(name: " ++ d.gw_name
            ++ ") due to: " ++ e.Error))) ∧
    (∀ g s1 e s2,
      (resourceAviatrixGatewaySNatUpdate client d s).calls.head? = some (.DisableSNat g) →
      client.DisableSNat g s = (none, s1) → client.EnableSNat g s1 = (some e, s2) →
      (resourceAviatrixGatewaySNatUpdate client d s).err
        = some (fmt.Errorf ("failed to enable SNAT of 'single_ip' for gateway(name: "
            ++ d.gw_name ++ ") due to: " ++ e.Error))) ∧
    (∀ g s1 s2,
      (resourceAviatrixGatewaySNatUpdate client d s).calls.head? = some (.DisableSNat g) →
      client.DisableSNat g s = (none, s1) → client.EnableSNat g s1 = (none, s2) →
      (resourceAviatrixGatewaySNatUpdate client d s).err
        = (resourceAviatrixGatewaySNatRead client (d.SetId d.gw_name) s2).err) ∧
    (∀ g e s1,
      (resourceAviatrixGatewaySNatUpdate client d s).calls.head? = some (.EnableSNat g) →
      client.EnableSNat g s = (some e, s1) →
      (resourceAviatrixGatewaySNatUpdate client d s).err
        = some (fmt.Errorf ("failed to enable SNAT of 'customized_snat': " ++ e.Error))) ∧
    (∀ g s1,
      (resourceAviatrixGatewaySNatUpdate client d s).calls.head? = some (.EnableSNat g) →
      client.EnableSNat g s = (none, s1) →
      (resourceAviatrixGatewaySNatUpdate client d s).err
        = (resourceAviatrixGatewaySNatRead client (d.SetId d.gw_name) s1).err) ∧
    (d.HasChange "snat_mode" = false → d.HasChange "snat_policy" = false →
      (resourceAviatrixGatewaySNatUpdate client d s).err
        = (resourceAviatrixGatewaySNatRead client (d.SetId d.gw_name) s).err) := by
  refine ⟨?_, ?_, ?_, ?_, ?_, ?_, ?_, ?_, ?_, ?_, ?_⟩
  · intro e s1 hdis
    unfold resourceAviatrixGatewaySNatDelete
    simp only [hdis]
  · intro e s1 hget
    constructor
    · intro hnf
      rw [read_unfold, hget]
      simp [hnf, ResourceData.SetId]
    · intro hnf
      rw [read_unfold, hget]
      simp [hnf]
  · intro gw s1 e s2 hget hdet
    rw [read_unfold, hget]
    dsimp only
    rw [hdet]
  · intro g e s1 hhead hen
    obtain ⟨ha, rfl⟩ := create_head_enable client d s g hhead
    rw [create_accepts client d s ha, hen]
  · intro g s1 hhead hen
    obtain ⟨ha, rfl⟩ := create_head_enable client d s g hhead
    rw [create_accepts client d s ha, hen]
  · intro g e s1 hhead hdis
    obtain ⟨hm, hv, rfl⟩ := update_head_disable client d s g hhead
    rw [update_mode_changed client d s hm hv, hdis]
  · intro g s1 e s2 hhead hdis hen
    obtain ⟨hm, hv, rfl⟩ := update_head_disable client d s g hhead
    rw [update_mode_changed client d s hm hv, hdis]
    dsimp only
    rw [hen]
  · intro g s1 s2 hhead hdis hen
    obtain ⟨hm, hv, rfl⟩ := update_head_disable client d s g hhead
    rw [update_mode_changed client d s hm hv, hdis]
    dsimp only
    rw [hen]
  · intro g e s1 hhead hen
    obtain ⟨hm, hp, hmode, hne, rfl⟩ := update_head_enable client d s g hhead
    rw [update_policy_only client d s hm hp hmode hne, hen]
  · intro g s1 hhead hen
    obtain ⟨hm, hp, hmode, hne, rfl⟩ := update_head_enable client d s g hhead
    rw [update_policy_only client d s hm hp hmode hne, hen]
  · intro hm hp
    rw [update_unchanged client d s hm hp]

/-! ## Mode round trip between Create and Read -/

theorem readRequest_after_create (d : ResourceData) :
    readRequest (d.SetId d.gw_name) = { GwName := d.gw_name } := by
  simp [readRequest, ResourceData.SetId]

/-- C8, as the code has it.  Suppose Create's EnableSNat succeeds, and the
gateway Read then finds reports the EnableNat of Create's request.  For
`single_ip`, if the gateway also reports the SnatMode of the request, Read
writes `single_ip`.  For `customized_snat`, the request's SnatMode is `custom`;
if the gateway reports that same SnatMode, Read writes `single_ip`, and Read
writes `customized_snat` when the gateway reports `customized`. -/
theorem create_read_mode {σ : Type} (client : Client σ) (d : ResourceData) (s : σ)
    (g : Gateway) (s1 : σ) (gw : Gateway) (s2 : σ) (det : GatewayDetail) (s3 : σ)
    (hcall : (resourceAviatrixGatewaySNatCreate client d s).calls.head?
      = some (.EnableSNat g))
    (hen : client.EnableSNat g s = (none, s1))
    (hget : client.GetGateway { GwName := d.gw_name } s1 = (.ok (some gw), s2))
    (hdet : client.GetGatewayDetail { GwName := d.gw_name } s2 = (.ok det, s3))
    (hnat : gw.EnableNat = g.EnableNat) :
    (d.snat_mode = "single_ip" → gw.SnatMode = g.SnatMode →
      (resourceAviatrixGatewaySNatCreate client d s).d.snat_mode = "single_ip") ∧
    (d.snat_mode = "customized_snat" →
      g.SnatMode = "custom" ∧
      (gw.SnatMode = g.SnatMode →
        (resourceAviatrixGatewaySNatCreate client d s).d.snat_mode = "single_ip") ∧
      (gw.SnatMode = "customized" →
        (resourceAviatrixGatewaySNatCreate client d s).d.snat_mode = "customized_snat")) := by
  obtain ⟨ha, rfl⟩ := create_head_enable client d s g hcall
  have hyes : gw.EnableNat = "yes" := by rw [hnat]; rfl
  rw [← readRequest_after_create] at hget hdet
  have hread := read_found_enabled client (d.SetId d.gw_name) s1 gw s2 det s3 hget hdet hyes
  have hd : (resourceAviatrixGatewaySNatCreate client d s).d
      = (resourceAviatrixGatewaySNatRead client (d.SetId d.gw_name) s1).d := by
    rw [create_accepts client d s ha, hen]
  rw [hd, hread]
  constructor
  · intro hmode hsame
    have hs : gw.SnatMode = "" := by rw [hsame]; simp [createRequest, hmode]
    simp [hs, ResourceData.Set_snat_mode, ResourceData.Set_snat_policy]
  · intro hmode
    have hc : (createRequest d).SnatMode = "custom" := by simp [createRequest, hmode]
    refine ⟨hc, ?_, ?_⟩
    · intro hsame
      have hs : gw.SnatMode = "custom" := by rw [hsame, hc]
      simp [hs, ResourceData.Set_snat_mode, ResourceData.Set_snat_policy]
    · intro hcust
      simp [hcust, ResourceData.Set_snat_mode, ResourceData.Set_snat_policy]

/-! ## The handlers on concrete inputs -/

/-- C5, a failing input.  DisableSNat returns the error `boom`, and Delete
returns an error with another text, not `boom`; GetGateway returns the
not-found sentinel, and Read returns nil. -/
theorem remote_error_not_verbatim :
    (failingClient boom).DisableSNat { GatewayName := "gw" } () = (some boom, ()) ∧
    (resourceAviatrixGatewaySNatDelete (failingClient boom)
        (freshData "gw" "single_ip" []) ()).err
      = some (fmt.Errorf "failed to disable SNAT for Aviatrix gateway(name: gw) due to: boom") ∧
    (resourceAviatrixGatewaySNatDelete (failingClient boom)
        (freshData "gw" "single_ip" []) ()).err ≠ some boom ∧
    (failingClient notFound).GetGateway { GwName := "gw" } () = (.error notFound, ()) ∧
    (resourceAviatrixGatewaySNatRead (failingClient notFound)
        (freshData "gw" "single_ip" []) ()).err = none := by
  refine ⟨rfl, ?_, ?_, rfl, ?_⟩ <;> decide

/-- C8, a failing input.  Create with `customized_snat` and one rule sends
EnableNat `yes` and SnatMode `custom`; the remote reports both back unchanged;
Read, called by Create, writes `single_ip`, not `customized_snat`. -/
theorem create_read_mode_customized_lost :
    (resourceAviatrixGatewaySNatCreate echoClient
        (freshData "gw" "customized_snat" [rule1]) none).calls.head?
      = some (.EnableSNat { GatewayName := "gw", EnableNat := "yes", SnatMode := "custom"
                            SnatPolicy := [customPolicy rule1] }) ∧
    echoClient.GetGateway { GwName := "gw" }
        (some { GatewayName := "gw", EnableNat := "yes", SnatMode := "custom"
                SnatPolicy := [customPolicy rule1] })
      = (.ok (some { GwName := "gw", EnableNat := "yes", SnatMode := "custom" }),
         some { GatewayName := "gw", EnableNat := "yes", SnatMode := "custom"
                SnatPolicy := [customPolicy rule1] }) ∧
    (resourceAviatrixGatewaySNatCreate echoClient
        (freshData "gw" "customized_snat" [rule1]) none).err = none ∧
    (resourceAviatrixGatewaySNatCreate echoClient
        (freshData "gw" "customized_snat" [rule1]) none).d.snat_mode = "single_ip" ∧
    (resourceAviatrixGatewaySNatCreate echoClient
        (freshData "gw" "customized_snat" [rule1]) none).d.snat_mode ≠ "customized_snat" := by
  refine ⟨?_, rfl, ?_, ?_, ?_⟩ <;> decide

theorem coupling_violation_rejected_witness :
    violatesCoupling (freshData "gw" "single_ip" [rule1]) ∧
    (resourceAviatrixGatewaySNatCreate echoClient
        (freshData "gw" "single_ip" [rule1]) none).calls = [] ∧
    violatesCoupling (freshData "gw" "customized_snat" []) ∧
    (resourceAviatrixGatewaySNatUpdate echoClient
        (freshData "gw" "customized_snat" []) none).err.isSome = true :=
  ⟨Or.inr ⟨Or.inl rfl, by decide⟩,
   (coupling_violation_rejected echoClient (freshData "gw" "single_ip" [rule1]) none
      (Or.inr ⟨Or.inl rfl, by decide⟩)).1.2.1,
   Or.inl ⟨rfl, rfl⟩,
   (coupling_violation_rejected echoClient (freshData "gw" "customized_snat" []) none
      (Or.inl ⟨rfl, rfl⟩)).2.2 (Or.inl (by decide))⟩

theorem request_policy_list_witness :
    (freshData "gw" "customized_snat" [rule1, rule2]).snat_mode = "customized_snat" ∧
    (freshData "gw" "customized_snat" [rule1, rule2]).snat_policy ≠ [] ∧
    ∃ ps : List PolicyRule, ps.length = 2 ∧
      ∃ g, (resourceAviatrixGatewaySNatCreate echoClient
              (freshData "gw" "customized_snat" [rule1, rule2]) none).calls.head?
            = some (.EnableSNat g) ∧ g.SnatPolicy = ps :=
  ⟨rfl, by decide,
   match request_policy_list echoClient (freshData "gw" "customized_snat" [rule1, rule2])
      none rfl (by decide) with
   | ⟨ps, hlen, _, hcreate, _⟩ => ⟨ps, hlen, hcreate⟩⟩

theorem remote_errors_are_wrapped_witness :
    (failingClient boom).DisableSNat { GatewayName := "gw" } () = (some boom, ()) ∧
    (resourceAviatrixGatewaySNatDelete (failingClient boom)
        (freshData "gw" "single_ip" []) ()).err
      = some (fmt.Errorf ("failed to disable SNAT for Aviatrix gateway(name: "
          ++ "gw" ++ ") due to: " ++ "boom")) ∧
    (resourceAviatrixGatewaySNatRead (failingClient notFound)
        (freshData "gw" "single_ip" []) ()).err = none :=
  ⟨rfl,
   (remote_errors_are_wrapped (failingClient boom) (freshData "gw" "single_ip" []) ()).1
      boom () rfl,
   ((remote_errors_are_wrapped (failingClient notFound) (freshData "gw" "single_ip" [])
      ()).2.1 notFound () rfl).1 rfl |>.1⟩

theorem read_overwrites_state_witness :
    (fixedClient { GwName := "gw", EnableNat := "yes", SnatMode := "secondary" }
        { SnatPolicy := [customPolicy rule1] }).GetGateway
        (readRequest (freshData "gw" "customized_snat" [rule1])) ()
      = (.ok (some { GwName := "gw", EnableNat := "yes", SnatMode := "secondary" }), ()) ∧
    (resourceAviatrixGatewaySNatRead
        (fixedClient { GwName := "gw", EnableNat := "yes", SnatMode := "secondary" }
          { SnatPolicy := [customPolicy rule1] })
        (freshData "gw" "customized_snat" [rule1]) ()).d.snat_mode = "multiple_ips" ∧
    (resourceAviatrixGatewaySNatRead
        (fixedClient { GwName := "gw", EnableNat := "yes", SnatMode := "secondary" }
          { SnatPolicy := [customPolicy rule1] })
        (freshData "gw" "customized_snat" [rule1]) ()).d.snat_policy = [] :=
  ⟨rfl,
   (read_overwrites_state
      (fixedClient { GwName := "gw", EnableNat := "yes", SnatMode := "secondary" }
        { SnatPolicy := [customPolicy rule1] })
      (freshData "gw" "customized_snat" [rule1]) ()
      { GwName := "gw", EnableNat := "yes", SnatMode := "secondary" } ()
      { SnatPolicy := [customPolicy rule1] } () rfl rfl rfl).2.2.1 rfl,
   (read_overwrites_state
      (fixedClient { GwName := "gw", EnableNat := "yes", SnatMode := "secondary" }
        { SnatPolicy := [customPolicy rule1] })
      (freshData "gw" "customized_snat" [rule1]) ()
      { GwName := "gw", EnableNat := "yes", SnatMode := "secondary" } ()
      { SnatPolicy := [customPolicy rule1] } () rfl rfl rfl).2.2.2.2 (by decide)⟩

theorem update_mode_check_witness :
    (freshData "gw" "multiple_ips" []).HasChange "snat_mode" = true ∧
    (∃ g, (resourceAviatrixGatewaySNatUpdate echoClient
              (freshData "gw" "multiple_ips" []) none).calls.head?
            = some (.DisableSNat g) ∧ g.SnatMode = "secondary") ∧
    (resourceAviatrixGatewaySNatUpdate echoClient
        (freshData "gw" "double_ip" []) none).calls = [] :=
  ⟨by decide,
   (update_mode_check echoClient (freshData "gw" "multiple_ips" []) none
      (by decide)).2.2.2.2.1 rfl rfl,
   (update_mode_check echoClient (freshData "gw" "double_ip" []) none
      (by decide)).2.2.1 ⟨by decide, by decide, by decide⟩⟩

theorem create_read_mode_witness :
    (resourceAviatrixGatewaySNatCreate echoClient
        (freshData "gw" "single_ip" []) none).calls.head?
      = some (.EnableSNat { GatewayName := "gw", EnableNat := "yes" }) ∧
    (resourceAviatrixGatewaySNatCreate echoClient
        (freshData "gw" "single_ip" []) none).d.snat_mode = "single_ip" ∧
    (resourceAviatrixGatewaySNatCreate
        (fixedClient { GwName := "gw", EnableNat := "yes", SnatMode := "customized" }
          { SnatPolicy := [customPolicy rule1] })
        (freshData "gw" "customized_snat" [rule1]) ()).d.snat_mode = "customized_snat" :=
  ⟨by decide,
   (create_read_mode echoClient (freshData "gw" "single_ip" []) none
      { GatewayName := "gw", EnableNat := "yes" }
      (some { GatewayName := "gw", EnableNat := "yes" })
      { GwName := "gw", EnableNat := "yes" }
      (some { GatewayName := "gw", EnableNat := "yes" })
      { SnatPolicy := [] }
      (some { GatewayName := "gw", EnableNat := "yes" })
      (by decide) rfl rfl rfl rfl).1 rfl rfl,
   ((create_read_mode
      (fixedClient { GwName := "gw", EnableNat := "yes", SnatMode := "customized" }
        { SnatPolicy := [customPolicy rule1] })
      (freshData "gw" "customized_snat" [rule1]) ()
      { GatewayName := "gw", EnableNat := "yes", SnatMode := "custom"
        SnatPolicy := [customPolicy rule1] } ()
      { GwName := "gw", EnableNat := "yes", SnatMode := "customized" } ()
      { SnatPolicy := [customPolicy rule1] } ()
      (by decide) rfl rfl rfl rfl).2 rfl).2.2 rfl⟩

theorem read_not_found_or_disabled_witness :
    (failingClient notFound).GetGateway (readRequest (freshData "gw" "single_ip" [])) ()
      = (.error notFound, ()) ∧
    (resourceAviatrixGatewaySNatRead (failingClient notFound)
        { freshData "gw" "single_ip" [] with id := "gw" } ()).d.id = "" ∧
    (resourceAviatrixGatewaySNatRead (failingClient boom)
        { freshData "gw" "single_ip" [] with id := "gw" } ()).d.id = "gw" ∧
    (resourceAviatrixGatewaySNatRead
        (fixedClient { GwName := "gw", EnableNat := "no" } { })
        (freshData "gw" "customized_snat" [rule1]) ()).err.isSome = true :=
  ⟨rfl,
   ((read_not_found_or_disabled (failingClient notFound)
      { freshData "gw" "single_ip" [] with id := "gw" } ()).1 notFound () rfl rfl).2.1,
   ((read_not_found_or_disabled (failingClient boom)
      { freshData "gw" "single_ip" [] with id := "gw" } ()).2.1 boom () rfl rfl).2,
   ((read_not_found_or_disabled (fixedClient { GwName := "gw", EnableNat := "no" } { })
      (freshData "gw" "customized_snat" [rule1]) ()).2.2
      { GwName := "gw", EnableNat := "no" } () rfl (by decide)).1⟩

theorem update_call_order_witness :
    ((freshData "gw" "multiple_ips" []).HasChange "snat_mode" = true ∧
      validConfig (freshData "gw" "multiple_ips" [])) ∧
    (∃ (g : Gateway) (rest : List Call),
      (resourceAviatrixGatewaySNatUpdate echoClient
          (freshData "gw" "multiple_ips" []) none).calls
        = .DisableSNat g :: .EnableSNat g :: rest ∧ ∀ c ∈ rest, c.isSNat = false) ∧
    (∃ (g : Gateway) (rest : List Call),
      (resourceAviatrixGatewaySNatUpdate echoClient policyEdited none).calls
        = .EnableSNat g :: rest ∧ ∀ c ∈ rest, c.isSNat = false) ∧
    (∀ c ∈ (resourceAviatrixGatewaySNatUpdate echoClient nothingEdited none).calls,
      c.isSNat = false) :=
  ⟨⟨by decide, Or.inr (Or.inl ⟨rfl, rfl⟩)⟩,
   match (update_call_order echoClient (freshData "gw" "multiple_ips" []) none).1
      (by decide) (Or.inr (Or.inl ⟨rfl, rfl⟩)) with
   | ⟨g, _, _, hok⟩ => ⟨g, hok none rfl⟩,
   (update_call_order echoClient policyEdited none).2.1
      (by decide) (by decide) rfl (by decide),
   (update_call_order echoClient nothingEdited none).2.2 (by decide) (by decide)⟩

end Aviatrix
